import Mathlib

/-!
# Turing-game matchmaking / session server: shallow embedding

This file embeds the event handlers of `src/turing-game/server/index.js` as
pure Lean functions over an explicit server state, and proves properties of
the matchmaking queue, the room registry, the dual timers and the guess
resolution logic.

Modelling conventions:
- JS `Map`s are insertion-ordered association lists. `Map.set` updates an
  existing key in place (keeping insertion position) or appends a fresh key;
  `Map.delete` removes the key; `Array.from(map.values())` is the list of
  values in insertion order.
- Each socket handler is a function `ServerState → ... → ServerState × List Action`
  where the `Action` trace records, in program order, every outbound event
  emission, timer cancellation/start, database call and scheduled room removal
  the handler performs.  "x happens before y" is then a statement about the
  order of the trace.
- The results of the asynchronous `dbService` calls are passed in as
  parameters (`Option`-valued: `none` models a rejected promise), as are the
  outcomes of `Math.random()` coin flips and of room-id generation.
-/

namespace TuringGame

/-- Socket ids (`socket.id`): opaque connection identifiers. -/
abbrev PlayerId := Nat

/-- Room ids produced by `generateRoomId`. -/
abbrev RoomId := Nat

/-- First-match lookup in an insertion-ordered association list (JS `Map.get`). -/
def mapLookup {α β : Type} [DecidableEq α] : List (α × β) → α → Option β
  | [], _ => none
  | kv :: rest, k => if kv.1 = k then some kv.2 else mapLookup rest k

/-- JS `Map.delete`: remove the entry with the given key (keys are unique in
a JS `Map`, so removing every occurrence is the same operation). -/
def mapDelete {α β : Type} [DecidableEq α] : List (α × β) → α → List (α × β)
  | [], _ => []
  | kv :: rest, k => if kv.1 = k then mapDelete rest k else kv :: mapDelete rest k

/-- JS `Map.set`: update an existing key in place (keeping its insertion
position) or append a fresh key at the end. -/
def mapSet {α β : Type} [DecidableEq α] : List (α × β) → α → β → List (α × β)
  | [], k, v => [(k, v)]
  | kv :: rest, k, v => if kv.1 = k then (k, v) :: rest else kv :: mapSet rest k v

/-- Key-set update used for the timer registries (`roomTimers` / `turnTimers`
maps): we only track which owner keys currently hold a live timer, so
`Map.set` keeps an existing key in place and appends a fresh one. -/
def keySet (l : List Nat) (k : Nat) : List Nat :=
  if k ∈ l then l else l ++ [k]

/-- `ROOM_TIME_LIMIT`: 2 minutes in milliseconds. -/
def ROOM_TIME_LIMIT : Nat := 120000

/-- `TURN_TIME_LIMIT`: 15 minutes in milliseconds. -/
def TURN_TIME_LIMIT : Nat := 900000

/-- A transcript entry (`{text, timestamp}`). -/
structure Message where
  text : String
  timestamp : Nat
deriving Repr, DecidableEq

/-- The room object built by `rooms.set(roomId, {...})`.  The JS object
literal has no `roomTimer` key; the `RETIRE` handler nevertheless reads and
writes `room.roomTimer`, so we model it as an `Option` that is `none`
(undefined) at creation and is never assigned a timer anywhere in the code. -/
structure Room where
  players : List PlayerId
  messages : List Message
  isFirstTurn : Bool
  playerTypes : List (PlayerId × Bool)
  isActive : Bool
  startTime : Nat
  currentTurn : Option PlayerId
  turnTimer : Option Unit
  roomTimer : Option Unit
deriving Repr, DecidableEq

/-- The process-wide mutable state: the waiting-player map, the room registry,
the two timer registries (tracked as key sets of live timers) and each
socket's `roomId` property. -/
structure ServerState where
  waitingPlayers : List (PlayerId × Bool)
  rooms : List (RoomId × Room)
  roomTimers : List RoomId
  turnTimers : List PlayerId
  socketRoom : List (PlayerId × RoomId)
deriving Repr, DecidableEq

/-- Outbound socket events with their payloads.  `YOUR_TURN` carries optional
`canGuess` / `timeLeft` keys because the two emission sites use different
payload shapes. -/
inductive OutEvent where
  | WAITING_FOR_PLAYER (message : String)
  | MATCH_FOUND (roomId : RoomId) (conversationId : Nat) (isAI : Bool)
      (isFirstTurn : Bool) (timeLeft : Nat)
  | RECEIVE_MESSAGE (text : String) (timestamp : Nat) (isUser : Bool)
  | YOUR_TURN (canSendMessage : Bool) (canGuess : Option Bool) (timeLeft : Option Nat)
  | OPPONENT_TYPING (isTyping : Bool)
  | GUESS_RESULT (isCorrect : Bool) (opponentGuess : Bool) (actualType : String)
  | GAME_OVER (message : String)
  | OPPONENT_DISCONNECTED (message : String) (isAI : Option Bool)
  | TIME_UPDATE (timeLeft : Int) (isLowTime : Bool)
  | ROOM_TIME_UP (message : String)
  | TURN_TIME_UPDATE (timeLeft : Int) (isLowTime : Bool)
  | TURN_TIME_UP
  | FORFEIT_RESULT (message : String)
  | OPPONENT_FORFEIT
  | ERROR (message : String)
deriving Repr, DecidableEq

/-- One step of the observable trace of a handler, in program order. -/
inductive Action where
  /-- `io.to(target).emit(...)` / `socket.emit(...)`. -/
  | emit (target : PlayerId) (ev : OutEvent)
  /-- `clearInterval(roomTimers.get(roomId)); roomTimers.delete(roomId)`. -/
  | clearRoomTimersEntry (roomId : RoomId)
  /-- `clearTimeout(room.roomTimer); room.roomTimer = null` (RETIRE handler). -/
  | clearRoomTimerField (roomId : RoomId)
  /-- `clearTimeout(turnTimers.get(playerId))` in `startTurnCountdown`. -/
  | clearTurnTimer (playerId : PlayerId)
  /-- the `setInterval` installed by `startRoomCountdown`. -/
  | startRoomTimer (roomId : RoomId)
  /-- the `setInterval` installed by `startTurnCountdown`. -/
  | startTurnTimer (playerId : PlayerId)
  /-- `setTimeout(() => rooms.delete(roomId), 5000)`. -/
  | scheduleRoomRemoval (roomId : RoomId)
  /-- `await dbService.createMessage(roomId, isPlayer1, text, senderId)`. -/
  | dbCreateMessage (roomId : RoomId) (isPlayer1 : Bool) (text : String) (senderId : PlayerId)
  /-- `await dbService.submitGuess(roomId, playerId, isAI)`. -/
  | dbSubmitGuess (roomId : RoomId) (playerId : PlayerId) (isAI : Bool)
  /-- `await dbService.createConversation(roomId, p1, p2, p1IsAI, p2IsAI)`. -/
  | dbCreateConversation (roomId : RoomId) (p1 p2 : PlayerId) (p1IsAI p2IsAI : Bool)
deriving Repr, DecidableEq

/-- The row returned by `dbService.submitGuess`. -/
structure GuessRow where
  player1_id : PlayerId
  player1_is_ai : Bool
  player2_is_ai : Bool
deriving Repr, DecidableEq

/-- `startRoomCountdown(roomId)`: returns early if the room is gone,
otherwise installs the session-wide interval under `roomId` in the
`roomTimers` map (cancelling any existing one first, which leaves the key
set unchanged when present). -/
def startRoomCountdown (s : ServerState) (roomId : RoomId) : ServerState :=
  match mapLookup s.rooms roomId with
  | none => s
  | some _ => { s with roomTimers := keySet s.roomTimers roomId }

/-- The state effect of `startTurnCountdown(roomId, playerId)`: returns early
if the room is gone, otherwise cancels any existing turn timer for
`playerId` and installs the new interval under `playerId` in `turnTimers`. -/
def startTurnCountdown (s : ServerState) (roomId : RoomId) (playerId : PlayerId) :
    ServerState :=
  match mapLookup s.rooms roomId with
  | none => s
  | some _ => { s with turnTimers := keySet s.turnTimers playerId }

/-- The `SEND_MESSAGE` handler.  `now` is the value of `new Date()` for the
message timestamp; `dbOk` is whether `dbService.createMessage` resolved. -/
def handleSendMessage (s : ServerState) (sid : PlayerId) (text : String) (now : Nat)
    (dbOk : Bool) : ServerState × List Action :=
  match mapLookup s.socketRoom sid with
  | none => (s, [.emit sid (.ERROR "Invalid room")])
  | some roomId =>
    match mapLookup s.rooms roomId with
    | none => (s, [.emit sid (.ERROR "Invalid room")])
    | some room =>
      match room.players.find? (fun p => p == sid),
            room.players.find? (fun p => p != sid) with
      | some _, some otherPlayer =>
        let isPlayer1 : Bool := room.players.head? == some sid
        if dbOk then
          let message : Message := { text := text, timestamp := now }
          let room' := { room with messages := room.messages ++ [message] }
          let s' := { s with rooms := mapSet s.rooms roomId room' }
          let s'' := startTurnCountdown s' roomId otherPlayer
          (s'', [.dbCreateMessage roomId isPlayer1 text sid,
                 .emit sid (.RECEIVE_MESSAGE text now true),
                 .emit otherPlayer (.RECEIVE_MESSAGE text now false),
                 .emit otherPlayer (.YOUR_TURN true none (some TURN_TIME_LIMIT)),
                 .startTurnTimer otherPlayer])
        else
          (s, [.dbCreateMessage roomId isPlayer1 text sid,
               .emit sid (.ERROR "Failed to send message")])
      | _, _ => (s, [.emit sid (.ERROR "Invalid sender or receiver")])

/-- The `MAKE_GUESS` handler.  `db` is the result of
`dbService.submitGuess` (`none` models a rejected promise). -/
def handleMakeGuess (s : ServerState) (sid : PlayerId) (isAI : Bool)
    (db : Option GuessRow) : ServerState × List Action :=
  match mapLookup s.socketRoom sid with
  | none => (s, [.emit sid (.ERROR "Invalid room")])
  | some roomId =>
    match mapLookup s.rooms roomId with
    | none => (s, [.emit sid (.ERROR "Invalid room")])
    | some room =>
      let (s1, acts1) :=
        if roomId ∈ s.roomTimers then
          ({ s with roomTimers := s.roomTimers.erase roomId },
           [Action.clearRoomTimersEntry roomId])
        else (s, ([] : List Action))
      match db with
      | none =>
        (s1, acts1 ++ [.dbSubmitGuess roomId sid isAI,
                       .emit sid (.ERROR "Failed to submit guess")])
      | some result =>
        let isCorrect : Bool :=
          if sid = result.player1_id then isAI == result.player2_is_ai
          else isAI == result.player1_is_ai
        let actualType : String :=
          if sid = result.player1_id then
            (if result.player2_is_ai then "AI" else "Human")
          else
            (if result.player1_is_ai then "AI" else "Human")
        let overActs : List Action :=
          match room.players.find? (fun p => p != sid) with
          | some otherPlayer =>
            [.emit otherPlayer
               (.GAME_OVER "Your opponent has made their guess. The game is over.")]
          | none => []
        (s1, acts1 ++ [.dbSubmitGuess roomId sid isAI,
                       .emit sid (.GUESS_RESULT isCorrect isAI actualType)]
                  ++ overActs)

/-- The `RETIRE` handler.  Note that it reads `room.roomTimer` — a field the
room object is created without and that nothing ever assigns — instead of the
`roomTimers` registry, and that the opponent notification is emitted before
that cancellation attempt. -/
def handleRetire (s : ServerState) (sid : PlayerId) : ServerState × List Action :=
  match mapLookup s.socketRoom sid with
  | none => (s, [])
  | some roomId =>
    match mapLookup s.rooms roomId with
    | none => (s, [])
    | some room =>
      let (room1, acts1) :=
        match room.players.find? (fun p => p != sid) with
        | some otherPlayer =>
          let notif := Action.emit otherPlayer
            (.OPPONENT_DISCONNECTED "Your opponent has retired from the game."
              (mapLookup room.playerTypes sid))
          let (room', cancelActs) :=
            match room.roomTimer with
            | some _ => ({ room with roomTimer := none },
                         [Action.clearRoomTimerField roomId])
            | none => (room, ([] : List Action))
          (room', [notif] ++ cancelActs ++
                  [Action.emit otherPlayer (.YOUR_TURN false (some true) none)])
        | none => (room, ([] : List Action))
      let room2 := { room1 with isActive := false }
      ({ s with rooms := mapSet s.rooms roomId room2 },
       acts1 ++ [Action.scheduleRoomRemoval roomId])

/-- The `disconnect` handler (`handleDisconnect`). -/
def handleDisconnect (s : ServerState) (sid : PlayerId) : ServerState × List Action :=
  let s0 := { s with waitingPlayers := mapDelete s.waitingPlayers sid }
  match mapLookup s0.socketRoom sid with
  | none => (s0, [])
  | some roomId =>
    match mapLookup s0.rooms roomId with
    | none => (s0, [])
    | some room =>
      let (s1, actsT) :=
        if roomId ∈ s0.roomTimers then
          ({ s0 with roomTimers := s0.roomTimers.erase roomId },
           [Action.clearRoomTimersEntry roomId])
        else (s0, ([] : List Action))
      let actsN : List Action :=
        match room.players.find? (fun p => p != sid) with
        | some otherPlayer =>
          [.emit otherPlayer (.OPPONENT_DISCONNECTED "Your opponent has disconnected."
             (mapLookup room.playerTypes sid)),
           .emit otherPlayer (.YOUR_TURN false (some true) none)]
        | none => []
      let room2 := { room with isActive := false }
      ({ s1 with rooms := mapSet s1.rooms roomId room2 },
       actsT ++ actsN ++ [Action.scheduleRoomRemoval roomId])

/-- The `JOIN_MATCHMAKING` handler (`handleMatchmaking`).  `isAI` is the
enqueue-time coin flip, `newRoomId` the value of `generateRoomId()`,
`firstTurn` the room-creation coin flip, `now` the value of `Date.now()`, and
`db` the result of `dbService.createConversation`: `none` models both a
rejected promise and a resolved value with no usable `conversation_id`
(the code turns the latter into a `throw`, so both land in the same catch,
which notifies only the caller and deletes only the caller from the queue). -/
def handleMatchmaking (s : ServerState) (sid : PlayerId) (isAI : Bool)
    (newRoomId : RoomId) (firstTurn : Bool) (now : Nat) (db : Option Nat) :
    ServerState × List Action :=
  let inRoom : Bool :=
    match mapLookup s.socketRoom sid with
    | some roomId => (mapLookup s.rooms roomId).isSome
    | none => false
  if inRoom then (s, [])
  else if (mapLookup s.waitingPlayers sid).isSome then (s, [])
  else
    let s1 := { s with waitingPlayers := mapSet s.waitingPlayers sid isAI }
    if s1.waitingPlayers.length ≥ 2 then
      match s1.waitingPlayers.take 2 with
      | [(p1, ai1), (p2, ai2)] =>
        match db with
        | none =>
          ({ s1 with waitingPlayers := mapDelete s1.waitingPlayers sid },
           [.dbCreateConversation newRoomId p1 p2 ai1 ai2,
            .emit sid (.ERROR "Failed to join matchmaking")])
        | some convId =>
          let room : Room :=
            { players := [p1, p2]
              messages := []
              isFirstTurn := firstTurn
              playerTypes := [(p1, ai1), (p2, ai2)]
              isActive := true
              startTime := now
              currentTurn := none
              turnTimer := none
              roomTimer := none }
          let s2 := { s1 with rooms := mapSet s1.rooms newRoomId room }
          let s3 := { s2 with
            socketRoom := mapSet (mapSet s2.socketRoom p1 newRoomId) p2 newRoomId,
            waitingPlayers := mapDelete (mapDelete s2.waitingPlayers p1) p2 }
          let s4 := startRoomCountdown s3 newRoomId
          (s4, [.dbCreateConversation newRoomId p1 p2 ai1 ai2,
                .emit p1 (.MATCH_FOUND newRoomId convId ai1 firstTurn ROOM_TIME_LIMIT),
                .emit p2 (.MATCH_FOUND newRoomId convId ai2 (!firstTurn) ROOM_TIME_LIMIT),
                .startRoomTimer newRoomId])
      | _ => (s1, [])
    else
      (s1, [.emit sid (.WAITING_FOR_PLAYER "Waiting for another player to join...")])

/-- The `CANCEL_MATCHMAKING` handler. -/
def handleCancelMatchmaking (s : ServerState) (sid : PlayerId) : ServerState :=
  { s with waitingPlayers := mapDelete s.waitingPlayers sid }

/-- `handleForfeit(roomId, playerId)`: a no-op when the room is gone,
otherwise stops the session-wide timer and notifies both sides. -/
def handleForfeit (s : ServerState) (roomId : RoomId) (playerId : PlayerId) :
    ServerState × List Action :=
  match mapLookup s.rooms roomId with
  | none => (s, [])
  | some room =>
    let (s1, acts1) :=
      if roomId ∈ s.roomTimers then
        ({ s with roomTimers := s.roomTimers.erase roomId },
         [Action.clearRoomTimersEntry roomId])
      else (s, ([] : List Action))
    let acts2 := [Action.emit playerId
      (.FORFEIT_RESULT "You've lost your turn due to time running out.")]
    let acts3 : List Action :=
      match room.players.find? (fun p => p != playerId) with
      | some otherPlayer => [.emit otherPlayer .OPPONENT_FORFEIT]
      | none => []
    (s1, acts1 ++ acts2 ++ acts3)

/-- One tick of the interval installed by `startTurnCountdown` for
`playerId`, with `timeLeft` seconds on the counter before the decrement.
The callback never consults the room registry: it decrements, emits
`TURN_TIME_UPDATE` unconditionally, and at zero clears itself, emits
`TURN_TIME_UP` and invokes `handleForfeit`. -/
def turnTimerTick (s : ServerState) (roomId : RoomId) (playerId : PlayerId)
    (timeLeft : Int) : ServerState × List Action :=
  let t := timeLeft - 1
  let upd := [Action.emit playerId (.TURN_TIME_UPDATE t (t ≤ 5))]
  if t ≤ 0 then
    let s1 := { s with turnTimers := s.turnTimers.erase playerId }
    let (s2, acts2) := handleForfeit s1 roomId playerId
    (s2, upd ++ [Action.clearTurnTimer playerId,
                 Action.emit playerId .TURN_TIME_UP] ++ acts2)
  else (s, upd)

/-- One tick of the interval installed by `startRoomCountdown`, with
`timeLeft` seconds on the counter before the decrement.  The callback
captured the `room` object at installation time; since the registry entry is
never replaced while present, the captured object is passed in explicitly. -/
def roomTimerTick (s : ServerState) (roomId : RoomId) (room : Room)
    (timeLeft : Int) : ServerState × List Action :=
  if !room.isActive then
    ({ s with roomTimers := s.roomTimers.erase roomId },
     [Action.clearRoomTimersEntry roomId])
  else
    let t := timeLeft - 1
    let upd := room.players.map (fun p => Action.emit p (.TIME_UPDATE t (t ≤ 30)))
    if t ≤ 0 then
      let upActs := room.players.map (fun p => Action.emit p
        (.ROOM_TIME_UP "Time's up! Make your guess about your opponent."))
      let room' := { room with isActive := false }
      let rooms' := s.rooms.map (fun kv => if kv.1 = roomId then (roomId, room') else kv)
      ({ s with roomTimers := s.roomTimers.erase roomId, rooms := rooms' },
       upd ++ [Action.clearRoomTimersEntry roomId] ++ upActs
           ++ [Action.scheduleRoomRemoval roomId])
    else (s, upd)

/-- The outbound events a trace sends to one participant, in order. -/
def emitsTo (acts : List Action) (p : PlayerId) : List OutEvent :=
  acts.filterMap (fun a => match a with
    | .emit q ev => if q = p then some ev else none
    | _ => none)

/-! ### Association-list lemmas -/

theorem mapLookup_mapSet_self {α β : Type} [DecidableEq α] (l : List (α × β))
    (k : α) (v : β) : mapLookup (mapSet l k v) k = some v := by
  induction l with
  | nil => simp [mapSet, mapLookup]
  | cons hd tl ih =>
    by_cases h : hd.1 = k
    · simp [mapSet, mapLookup, h]
    · simpa [mapSet, mapLookup, h] using ih

theorem mapSet_of_lookup_none {α β : Type} [DecidableEq α] (l : List (α × β))
    (k : α) (v : β) (h : mapLookup l k = none) : mapSet l k v = l ++ [(k, v)] := by
  induction l with
  | nil => simp [mapSet]
  | cons hd tl ih =>
    by_cases hh : hd.1 = k
    · simp [mapLookup, hh] at h
    · simp only [mapLookup, hh, if_neg hh] at h
      simp [mapSet, hh, ih h]

theorem mapLookup_mapDelete_self {α β : Type} [DecidableEq α] (l : List (α × β))
    (k : α) : mapLookup (mapDelete l k) k = none := by
  induction l with
  | nil => rfl
  | cons hd tl ih =>
    by_cases h : hd.1 = k
    · simpa [mapDelete, h] using ih
    · simpa [mapDelete, mapLookup, h] using ih

theorem mapLookup_mapDelete_ne {α β : Type} [DecidableEq α] (l : List (α × β))
    (k k' : α) (h : k ≠ k') : mapLookup (mapDelete l k') k = mapLookup l k := by
  induction l with
  | nil => rfl
  | cons hd tl ih =>
    by_cases hh : hd.1 = k'
    · simpa [mapDelete, mapLookup, hh, Ne.symm h] using ih
    · by_cases hk : hd.1 = k
      · simp [mapDelete, mapLookup, hh, hk, h]
      · simpa [mapDelete, mapLookup, hh, hk] using ih

theorem mapDelete_append_single {α β : Type} [DecidableEq α] (l : List (α × β))
    (k : α) (v : β) (h : mapLookup l k = none) :
    mapDelete (l ++ [(k, v)]) k = l := by
  induction l with
  | nil => simp [mapDelete]
  | cons hd tl ih =>
    by_cases hh : hd.1 = k
    · simp [mapLookup, hh] at h
    · simp only [mapLookup, hh, if_neg hh] at h
      simpa [mapDelete, hh] using ih h

/-! ### Concrete fixtures used by counterexamples and witnesses -/

/-- A freshly created active room for players 1 and 2 (player 1 was flagged
as the AI at enqueue time). -/
def room0 : Room :=
  { players := [1, 2]
    messages := []
    isFirstTurn := true
    playerTypes := [(1, true), (2, false)]
    isActive := true
    startTime := 0
    currentTurn := none
    turnTimer := none
    roomTimer := none }

/-- A server state with one live room `100` (players 1 and 2), its
session-wide timer running, as produced by a successful pairing. -/
def st0 : ServerState :=
  { waitingPlayers := []
    rooms := [(100, room0)]
    roomTimers := [100]
    turnTimers := []
    socketRoom := [(1, 100), (2, 100)] }

/-- The row `dbService.submitGuess` returns for room `100`: player 1 is
`player1_id`, flagged AI; player 2 flagged human. -/
def row0 : GuessRow :=
  { player1_id := 1, player1_is_ai := true, player2_is_ai := false }

/-- A server state with a single waiting player `7` (flagged AI) and no
rooms. -/
def stQ1 : ServerState :=
  { waitingPlayers := [(7, true)]
    rooms := []
    roomTimers := []
    turnTimers := []
    socketRoom := [] }

/-- `st0` with room `100` already marked inactive (as after a terminal
transition, during the 5-second grace window). -/
def stInactive : ServerState :=
  { st0 with rooms := [(100, { room0 with isActive := false })] }

/-- A server state in which players 7 and 9 are already waiting (in that
insertion order) — as left behind, e.g., by an earlier failed pairing — and
no rooms exist. -/
def stQ2 : ServerState :=
  { waitingPlayers := [(7, true), (9, false)]
    rooms := []
    roomTimers := []
    turnTimers := []
    socketRoom := [] }

/-! ### C1 — `MAKE_GUESS` is not a terminal transition -/

/-- C1 counterexample: in a live session (room `100`, players 1 and 2,
session timer running) player 1 submits a successful guess; the result is
emitted and player 2 is notified, yet the session does NOT transition to a
terminal state: `isActive` remains `true` and no removal from the registry
is scheduled, contradicting the claim that a successful SubmitGuess sets
`active=false` and schedules removal after the grace delay. -/
theorem c1_guess_counterexample :
    ((handleMakeGuess st0 1 true (some row0)).1.rooms.map
      (fun kv => (kv.1, kv.2.isActive)) = [(100, true)]) ∧
    Action.emit 1 (.GUESS_RESULT false true "Human")
      ∈ (handleMakeGuess st0 1 true (some row0)).2 ∧
    Action.emit 2 (.GAME_OVER "Your opponent has made their guess. The game is over.")
      ∈ (handleMakeGuess st0 1 true (some row0)).2 ∧
    Action.scheduleRoomRemoval 100 ∉ (handleMakeGuess st0 1 true (some row0)).2 := by
  decide

/-- C1 (amended): a successful SubmitGuess cancels the session-wide timer,
emits the guess result to the guesser and notifies the other participant
that the game is over, but it performs no terminal transition: the room
registry is unchanged (in particular `active` keeps its value) and no
removal from the registry is scheduled. -/
theorem c1_guess_not_terminal (s : ServerState) (sid otherPlayer : PlayerId)
    (g : Bool) (row : GuessRow) (roomId : RoomId) (room : Room)
    (hsr : mapLookup s.socketRoom sid = some roomId)
    (hr : mapLookup s.rooms roomId = some room)
    (ht : roomId ∈ s.roomTimers)
    (ho : room.players.find? (fun p => p != sid) = some otherPlayer) :
    handleMakeGuess s sid g (some row) =
      ({ s with roomTimers := s.roomTimers.erase roomId },
       [Action.clearRoomTimersEntry roomId,
        Action.dbSubmitGuess roomId sid g,
        Action.emit sid (.GUESS_RESULT
          (if sid = row.player1_id then g == row.player2_is_ai
           else g == row.player1_is_ai)
          g
          (if sid = row.player1_id then (if row.player2_is_ai then "AI" else "Human")
           else (if row.player1_is_ai then "AI" else "Human"))),
        Action.emit otherPlayer
          (.GAME_OVER "Your opponent has made their guess. The game is over.")]) ∧
    (handleMakeGuess s sid g (some row)).1.rooms = s.rooms ∧
    Action.scheduleRoomRemoval roomId ∉ (handleMakeGuess s sid g (some row)).2 := by
  have hmain : handleMakeGuess s sid g (some row) =
      ({ s with roomTimers := s.roomTimers.erase roomId },
       [Action.clearRoomTimersEntry roomId,
        Action.dbSubmitGuess roomId sid g,
        Action.emit sid (.GUESS_RESULT
          (if sid = row.player1_id then g == row.player2_is_ai
           else g == row.player1_is_ai)
          g
          (if sid = row.player1_id then (if row.player2_is_ai then "AI" else "Human")
           else (if row.player1_is_ai then "AI" else "Human"))),
        Action.emit otherPlayer
          (.GAME_OVER "Your opponent has made their guess. The game is over.")]) := by
    unfold handleMakeGuess
    simp [hsr, hr, ht, ho]
  refine ⟨hmain, ?_, ?_⟩
  · rw [hmain]
  · rw [hmain]
    simp

/-- C1 witness: the amended theorem applied to the concrete live session
`st0`. -/
theorem c1_guess_not_terminal_witness :
    (mapLookup st0.socketRoom 1 = some 100 ∧
     mapLookup st0.rooms 100 = some room0 ∧
     100 ∈ st0.roomTimers ∧
     room0.players.find? (fun p => p != 1) = some 2) ∧
    (handleMakeGuess st0 1 true (some row0)).1.rooms = st0.rooms :=
  ⟨⟨by decide, by decide, by decide, by decide⟩,
   (c1_guess_not_terminal st0 1 2 true row0 100 room0
     (by decide) (by decide) (by decide) (by decide)).2.1⟩

/-! ### C2 — `RETIRE` does not cancel the registered session timer, and the
notification precedes the cancellation attempt -/

/-- C2 counterexample: in the live session `st0` (session-wide timer
registered for room `100`) player 1 retires.  The resulting timer registry
still holds the room's timer, the trace contains no cancellation of the
registered timer, and the very first action is the retirement notification
to the other participant — refuting both that Retire cancels the
session-wide timer and that any such cancellation happens before the
notification. -/
theorem c2_retire_counterexample :
    (handleRetire st0 1).1.roomTimers = [100] ∧
    Action.clearRoomTimersEntry 100 ∉ (handleRetire st0 1).2 ∧
    Action.clearRoomTimerField 100 ∉ (handleRetire st0 1).2 ∧
    (handleRetire st0 1).2.head? =
      some (Action.emit 2 (.OPPONENT_DISCONNECTED
        "Your opponent has retired from the game." (some true))) := by
  decide

/-- C2 (amended): Retire notifies the other participant first and only then
attempts to cancel the session-wide timer — and that attempt reads the
room's `roomTimer` field, which is never populated (the registered timer
lives in the `roomTimers` registry), so the registered session-wide timer is
not cancelled by Retire at all: the timer registry is unchanged and the
trace is exactly notification, guess grant, scheduled removal. -/
theorem c2_retire_no_cancellation (s : ServerState) (sid otherPlayer : PlayerId)
    (roomId : RoomId) (room : Room)
    (hsr : mapLookup s.socketRoom sid = some roomId)
    (hr : mapLookup s.rooms roomId = some room)
    (ho : room.players.find? (fun p => p != sid) = some otherPlayer)
    (hrt : room.roomTimer = none) :
    handleRetire s sid =
      ({ s with rooms := mapSet s.rooms roomId { room with isActive := false } },
       [Action.emit otherPlayer (.OPPONENT_DISCONNECTED
          "Your opponent has retired from the game."
          (mapLookup room.playerTypes sid)),
        Action.emit otherPlayer (.YOUR_TURN false (some true) none),
        Action.scheduleRoomRemoval roomId]) ∧
    (handleRetire s sid).1.roomTimers = s.roomTimers := by
  have hmain : handleRetire s sid =
      ({ s with rooms := mapSet s.rooms roomId { room with isActive := false } },
       [Action.emit otherPlayer (.OPPONENT_DISCONNECTED
          "Your opponent has retired from the game."
          (mapLookup room.playerTypes sid)),
        Action.emit otherPlayer (.YOUR_TURN false (some true) none),
        Action.scheduleRoomRemoval roomId]) := by
    unfold handleRetire
    simp [hsr, hr, ho, hrt]
  exact ⟨hmain, by rw [hmain]⟩

/-- C2 witness: the amended theorem applied to the concrete live session
`st0`, in which the session timer for room `100` is registered. -/
theorem c2_retire_no_cancellation_witness :
    (mapLookup st0.socketRoom 1 = some 100 ∧
     mapLookup st0.rooms 100 = some room0 ∧
     room0.players.find? (fun p => p != 1) = some 2 ∧
     room0.roomTimer = none) ∧
    (handleRetire st0 1).1.roomTimers = st0.roomTimers :=
  ⟨⟨by decide, by decide, by decide, by decide⟩,
   (c2_retire_no_cancellation st0 1 2 100 room0
     (by decide) (by decide) (by decide) (by decide)).2⟩

/-! ### C3 — pairing failure notifies and dequeues only the caller -/

/-- C3 counterexample: player 7 is waiting; player 8 joins and the
`createConversation` call fails.  No session is created (as the claim says),
but participant 7 is NOT returned to an unmatched state — the entry stays in
the queue — and the only error notification goes to the caller 8, refuting
"both paired participants are returned to an unmatched state and both are
notified of the error". -/
theorem c3_pairing_failure_counterexample :
    (handleMatchmaking stQ1 8 false 50 true 0 none).1.rooms = [] ∧
    (handleMatchmaking stQ1 8 false 50 true 0 none).1.waitingPlayers = [(7, true)] ∧
    (handleMatchmaking stQ1 8 false 50 true 0 none).2 =
      [Action.dbCreateConversation 50 7 8 true false,
       Action.emit 8 (.ERROR "Failed to join matchmaking")] := by
  decide

/-- C3 (amended): when the `createConversation` call fails (or returns no
usable reference), no session is created and the server state is restored to
exactly what it was before the call — so the other selected participant
remains in the queue, not unmatched — and the only notification emitted is
the error to the enqueuing caller. -/
theorem c3_pairing_failure_only_caller (s : ServerState) (sid q1 q2 : PlayerId)
    (ai b1 b2 : Bool) (rid : RoomId) (ft : Bool) (now : Nat)
    (hnr : mapLookup s.socketRoom sid = none)
    (hnw : mapLookup s.waitingPlayers sid = none)
    (hlen : 1 ≤ s.waitingPlayers.length)
    (htake : (s.waitingPlayers ++ [(sid, ai)]).take 2 = [(q1, b1), (q2, b2)]) :
    handleMatchmaking s sid ai rid ft now none =
      (s, [Action.dbCreateConversation rid q1 q2 b1 b2,
           Action.emit sid (.ERROR "Failed to join matchmaking")]) := by
  have hset : mapSet s.waitingPlayers sid ai = s.waitingPlayers ++ [(sid, ai)] :=
    mapSet_of_lookup_none _ _ _ hnw
  have hlen2 : 2 ≤ (mapSet s.waitingPlayers sid ai).length := by
    rw [hset]
    simp only [List.length_append, List.length_cons, List.length_nil]
    omega
  have hdel : mapDelete (mapSet s.waitingPlayers sid ai) sid = s.waitingPlayers := by
    rw [hset]
    exact mapDelete_append_single _ _ _ hnw
  unfold handleMatchmaking
  rw [hnr]
  simp only [hnw, Option.isSome_none, Bool.false_eq_true, if_false, if_true]
  rw [hset] at hlen2 ⊢
  simp only [ge_iff_le, hlen2, if_true, htake]
  rw [← hset, hdel]

/-- C3 witness: the amended theorem applied to the concrete one-player
queue `stQ1` with caller 8 and a failing persistence call. -/
theorem c3_pairing_failure_only_caller_witness :
    (mapLookup stQ1.socketRoom 8 = none ∧
     mapLookup stQ1.waitingPlayers 8 = none ∧
     1 ≤ stQ1.waitingPlayers.length ∧
     (stQ1.waitingPlayers ++ [(8, false)]).take 2 = [(7, true), (8, false)]) ∧
    handleMatchmaking stQ1 8 false 50 true 0 none =
      (stQ1, [Action.dbCreateConversation 50 7 8 true false,
              Action.emit 8 (.ERROR "Failed to join matchmaking")]) :=
  ⟨⟨by decide, by decide, by decide, by decide⟩,
   c3_pairing_failure_only_caller stQ1 8 7 8 false true false 50 true 0
     (by decide) (by decide) (by decide) (by decide)⟩

/-! ### C4 — `SEND_MESSAGE` does not check the active flag -/

/-- C4 counterexample: room `100` exists but is inactive
(`isActive = false`); player 1 sends a message and it is NOT rejected: the
persistence call is made, the transcript is mutated, the message is
delivered to both participants, and the recipient's turn timer is started —
refuting "the message is rejected with an error and no transcript mutation,
delivery, or turn-timer start occurs". -/
theorem c4_inactive_relay_counterexample :
    (mapLookup stInactive.rooms 100).map Room.isActive = some false ∧
    (handleSendMessage stInactive 1 "hi" 5 true).2 =
      [Action.dbCreateMessage 100 true "hi" 1,
       Action.emit 1 (.RECEIVE_MESSAGE "hi" 5 true),
       Action.emit 2 (.RECEIVE_MESSAGE "hi" 5 false),
       Action.emit 2 (.YOUR_TURN true none (some 900000)),
       Action.startTurnTimer 2] ∧
    (mapLookup (handleSendMessage stInactive 1 "hi" 5 true).1.rooms 100).map
      Room.messages = some [{ text := "hi", timestamp := 5 }] ∧
    (handleSendMessage stInactive 1 "hi" 5 true).1.turnTimers = [2] := by
  decide

/-- Shared helper: the full behavior of a `SEND_MESSAGE` whose persistence
call succeeds, for any session in which sender and recipient resolve.  Note
that no hypothesis about `room.isActive` is needed: the handler never reads
it. -/
theorem sendMessage_success_eq (s : ServerState)
    (sid sender otherPlayer : PlayerId) (text : String) (now : Nat)
    (roomId : RoomId) (room : Room)
    (hsr : mapLookup s.socketRoom sid = some roomId)
    (hr : mapLookup s.rooms roomId = some room)
    (hs : room.players.find? (fun p => p == sid) = some sender)
    (ho : room.players.find? (fun p => p != sid) = some otherPlayer) :
    handleSendMessage s sid text now true =
      (startTurnCountdown
        ({ s with rooms := mapSet s.rooms roomId ({ room with messages := room.messages ++ [{ text := text, timestamp := now }] }) })
        roomId otherPlayer,
       [Action.dbCreateMessage roomId (room.players.head? == some sid) text sid,
        Action.emit sid (.RECEIVE_MESSAGE text now true),
        Action.emit otherPlayer (.RECEIVE_MESSAGE text now false),
        Action.emit otherPlayer (.YOUR_TURN true none (some TURN_TIME_LIMIT)),
        Action.startTurnTimer otherPlayer]) := by
  unfold handleSendMessage
  simp [hsr, hr, hs, ho]

/-- C4 (amended): RelayMessage requires only that the session exists and
that sender and recipient resolve; the `active` flag is not consulted.  A
message to an existing but inactive session is persisted, appended to the
transcript, delivered to sender and recipient, and starts the recipient's
turn timer, exactly as for an active session. -/
theorem c4_relay_ignores_active_flag (s : ServerState)
    (sid sender otherPlayer : PlayerId) (text : String) (now : Nat)
    (roomId : RoomId) (room : Room)
    (hsr : mapLookup s.socketRoom sid = some roomId)
    (hr : mapLookup s.rooms roomId = some room)
    (hinact : room.isActive = false)
    (hs : room.players.find? (fun p => p == sid) = some sender)
    (ho : room.players.find? (fun p => p != sid) = some otherPlayer) :
    handleSendMessage s sid text now true =
      (startTurnCountdown
        ({ s with rooms := mapSet s.rooms roomId ({ room with messages := room.messages ++ [{ text := text, timestamp := now }] }) })
        roomId otherPlayer,
       [Action.dbCreateMessage roomId (room.players.head? == some sid) text sid,
        Action.emit sid (.RECEIVE_MESSAGE text now true),
        Action.emit otherPlayer (.RECEIVE_MESSAGE text now false),
        Action.emit otherPlayer (.YOUR_TURN true none (some TURN_TIME_LIMIT)),
        Action.startTurnTimer otherPlayer]) ∧
    (mapLookup (handleSendMessage s sid text now true).1.rooms roomId).map
      Room.messages = some (room.messages ++ [{ text := text, timestamp := now }]) ∧
    (handleSendMessage s sid text now true).1.turnTimers =
      keySet s.turnTimers otherPlayer := by
  have hmain := sendMessage_success_eq s sid sender otherPlayer text now roomId room
    hsr hr hs ho
  have hlook : mapLookup (mapSet s.rooms roomId
      ({ room with messages := room.messages ++ [{ text := text, timestamp := now }] }))
      roomId = some ({ room with messages := room.messages ++ [{ text := text, timestamp := now }] }) :=
    mapLookup_mapSet_self _ _ _
  refine ⟨hmain, ?_, ?_⟩
  · rw [hmain]
    unfold startTurnCountdown
    simp [hlook]
  · rw [hmain]
    unfold startTurnCountdown
    simp [hlook]

/-- C4 witness: the amended theorem applied to the concrete inactive
session `stInactive`. -/
theorem c4_relay_ignores_active_flag_witness :
    (mapLookup stInactive.socketRoom 1 = some 100 ∧
     mapLookup stInactive.rooms 100 = some { room0 with isActive := false } ∧
     ({ room0 with isActive := false } : Room).isActive = false ∧
     ({ room0 with isActive := false } : Room).players.find? (fun p => p == 1) = some 1 ∧
     ({ room0 with isActive := false } : Room).players.find? (fun p => p != 1) = some 2) ∧
    (handleSendMessage stInactive 1 "hi" 5 true).1.turnTimers = keySet stInactive.turnTimers 2 :=
  ⟨⟨by decide, by decide, by decide, by decide, by decide⟩,
   (c4_relay_ignores_active_flag stInactive 1 1 2 "hi" 5 100
     { room0 with isActive := false }
     (by decide) (by decide) (by decide) (by decide) (by decide)).2.2⟩

/-! ### C5 — the recipient's turn grant carries 900000, not 900 -/

/-- C5 counterexample: in the live session `st0`, player 1 relays "hi"
successfully.  The recipient (player 2) does receive `RECEIVE_MESSAGE` with
`isUser = false` followed by `YOUR_TURN` with `canSendMessage = true`, but
its `timeLeft` is the raw `TURN_TIME_LIMIT` of 900000 (milliseconds); no
event with `timeLeft = 900` is emitted, refuting "timeLeft equal to 900". -/
theorem c5_turn_budget_counterexample :
    emitsTo (handleSendMessage st0 1 "hi" 5 true).2 2 =
      [.RECEIVE_MESSAGE "hi" 5 false, .YOUR_TURN true none (some 900000)] ∧
    OutEvent.YOUR_TURN true none (some 900)
      ∉ emitsTo (handleSendMessage st0 1 "hi" 5 true).2 2 := by
  decide

/-- C5 (amended): for every successfully relayed message, the recipient
receives `RECEIVE_MESSAGE` with `isUser = false` followed by `YOUR_TURN`
with `canSendMessage = true` and `timeLeft` equal to 900000 — the per-turn
budget expressed in milliseconds (the raw `TURN_TIME_LIMIT` constant), not
900 seconds. -/
theorem c5_recipient_message_then_turn (s : ServerState)
    (sid sender otherPlayer : PlayerId) (text : String) (now : Nat)
    (roomId : RoomId) (room : Room)
    (hsr : mapLookup s.socketRoom sid = some roomId)
    (hr : mapLookup s.rooms roomId = some room)
    (hs : room.players.find? (fun p => p == sid) = some sender)
    (ho : room.players.find? (fun p => p != sid) = some otherPlayer) :
    emitsTo (handleSendMessage s sid text now true).2 otherPlayer =
      [.RECEIVE_MESSAGE text now false,
       .YOUR_TURN true none (some TURN_TIME_LIMIT)] ∧
    TURN_TIME_LIMIT = 900000 := by
  have hne : sid ≠ otherPlayer := by
    have hp := List.find?_some ho
    simp only [bne_iff_ne, ne_eq] at hp
    exact fun h => hp h.symm
  rw [sendMessage_success_eq s sid sender otherPlayer text now roomId room hsr hr hs ho]
  exact ⟨by simp [emitsTo, hne], rfl⟩

/-- C5 witness: the amended theorem applied to the live session `st0`. -/
theorem c5_recipient_message_then_turn_witness :
    (mapLookup st0.socketRoom 1 = some 100 ∧
     mapLookup st0.rooms 100 = some room0 ∧
     room0.players.find? (fun p => p == 1) = some 1 ∧
     room0.players.find? (fun p => p != 1) = some 2) ∧
    emitsTo (handleSendMessage st0 1 "hi" 5 true).2 2 =
      [OutEvent.RECEIVE_MESSAGE "hi" 5 false,
       OutEvent.YOUR_TURN true none (some TURN_TIME_LIMIT)] :=
  ⟨⟨by decide, by decide, by decide, by decide⟩,
   (c5_recipient_message_then_turn st0 1 1 2 "hi" 5 100 room0
     (by decide) (by decide) (by decide) (by decide)).1⟩

/-! ### C6 — duplicate enqueue is a silent no-op -/

/-- C6 counterexample: player 7 is already waiting in `stQ1` and re-joins
matchmaking: the handler returns with the state unchanged and emits NOTHING —
no `AlreadyQueued`-style error is reported to the caller.  Likewise player 1,
already in session `100` of `st0`, re-joins: again the state is unchanged and
nothing at all is emitted — no success-with-wait notification. -/
theorem c6_enqueue_silent_counterexample :
    handleMatchmaking stQ1 7 true 50 true 0 none = (stQ1, []) ∧
    handleMatchmaking st0 1 true 50 true 0 (some 5) = (st0, []) := by
  decide

/-- C6 (amended): when the participant is already present in the matchmaking
queue (and holds no live room), and likewise when the participant is already
in a session, `JOIN_MATCHMAKING` is a silent no-op: the state is unchanged —
in particular no second WaitingEntry is added — and no event whatsoever is
emitted to the caller (neither an error nor a waiting/success notification). -/
theorem c6_enqueue_duplicate_silent (s : ServerState) (sid : PlayerId) (ai : Bool)
    (rid : RoomId) (ft : Bool) (now : Nat) (db : Option Nat)
    (h : ((mapLookup s.waitingPlayers sid).isSome = true ∧
          mapLookup s.socketRoom sid = none) ∨
         (∃ roomId, mapLookup s.socketRoom sid = some roomId ∧
          (mapLookup s.rooms roomId).isSome = true)) :
    handleMatchmaking s sid ai rid ft now db = (s, []) := by
  unfold handleMatchmaking
  rcases h with ⟨hq, hnr⟩ | ⟨roomId, hsr, hrm⟩
  · rw [hnr]
    simp [hq]
  · rw [hsr]
    simp [hrm]

/-- C6 witness: the amended theorem applied to `stQ1` with the
already-waiting player 7. -/
theorem c6_enqueue_duplicate_silent_witness :
    ((mapLookup stQ1.waitingPlayers 7).isSome = true ∧
     mapLookup stQ1.socketRoom 7 = none) ∧
    handleMatchmaking stQ1 7 true 51 false 3 (some 9) = (stQ1, []) :=
  ⟨⟨by decide, by decide⟩,
   c6_enqueue_duplicate_silent stQ1 7 true 51 false 3 (some 9)
     (Or.inl ⟨by decide, by decide⟩)⟩

/-! ### C7 — guess correctness against the persisted roles -/

/-- C7 (confirmed): the guesser's `GUESS_RESULT` computes correctness
against the OTHER participant's stored surrogate flag, with the role
resolved by matching the guesser against the persisted `player1_id`: if the
guesser is the persisted player 1, the guess is correct iff it equals
`player2_is_ai`, and otherwise iff it equals `player1_is_ai`. -/
theorem c7_guess_correctness (s : ServerState) (sid : PlayerId) (g : Bool)
    (row : GuessRow) (roomId : RoomId) (room : Room)
    (hsr : mapLookup s.socketRoom sid = some roomId)
    (hr : mapLookup s.rooms roomId = some room) :
    emitsTo (handleMakeGuess s sid g (some row)).2 sid =
      [.GUESS_RESULT
        (if sid = row.player1_id then g == row.player2_is_ai
         else g == row.player1_is_ai)
        g
        (if sid = row.player1_id then (if row.player2_is_ai then "AI" else "Human")
         else (if row.player1_is_ai then "AI" else "Human"))] := by
  unfold handleMakeGuess
  rcases hfind : room.players.find? (fun p => p != sid) with _ | p
  · by_cases ht : roomId ∈ s.roomTimers <;>
      simp [hsr, hr, hfind, ht, emitsTo]
  · have hne : p ≠ sid := by
      have hp := List.find?_some hfind
      simpa [bne_iff_ne] using hp
    by_cases ht : roomId ∈ s.roomTimers <;>
      simp [hsr, hr, hfind, ht, emitsTo, hne]

/-- C7 witness: player 1 guesses "AI" in `st0`; the database row `row0`
names player 1 as `player1_id` with `player2_is_ai = false`, so the guess is
scored against player 2's flag and is incorrect. -/
theorem c7_guess_correctness_witness :
    (mapLookup st0.socketRoom 1 = some 100 ∧
     mapLookup st0.rooms 100 = some room0) ∧
    emitsTo (handleMakeGuess st0 1 true (some row0)).2 1 =
      [OutEvent.GUESS_RESULT (true == row0.player2_is_ai) true "Human"] :=
  ⟨⟨by decide, by decide⟩, by
    have h := c7_guess_correctness st0 1 true row0 100 room0 (by decide) (by decide)
    simpa [row0] using h⟩

/-! ### C8 — pairing consumes the two earliest-inserted queue entries -/

/-- C8 (confirmed): when the queue holds at least two entries after the
append and the persistence call succeeds, the created session's
`players` are exactly the first two entries of the queue in insertion order
(the FIFO-earliest, not necessarily including the caller), and both
consumed entries are removed from the queue. -/
theorem c8_pairing_consumes_fifo_head (s : ServerState) (sid q1 q2 : PlayerId)
    (ai b1 b2 : Bool) (rid : RoomId) (ft : Bool) (now cid : Nat)
    (hnr : mapLookup s.socketRoom sid = none)
    (hnw : mapLookup s.waitingPlayers sid = none)
    (hlen : 1 ≤ s.waitingPlayers.length)
    (htake : (s.waitingPlayers ++ [(sid, ai)]).take 2 = [(q1, b1), (q2, b2)]) :
    (mapLookup (handleMatchmaking s sid ai rid ft now (some cid)).1.rooms rid).map
      Room.players = some [q1, q2] ∧
    mapLookup (handleMatchmaking s sid ai rid ft now (some cid)).1.waitingPlayers
      q1 = none ∧
    mapLookup (handleMatchmaking s sid ai rid ft now (some cid)).1.waitingPlayers
      q2 = none ∧
    (handleMatchmaking s sid ai rid ft now (some cid)).1.waitingPlayers =
      mapDelete (mapDelete (s.waitingPlayers ++ [(sid, ai)]) q1) q2 := by
  have hset : mapSet s.waitingPlayers sid ai = s.waitingPlayers ++ [(sid, ai)] :=
    mapSet_of_lookup_none _ _ _ hnw
  have hlen2 : 2 ≤ (mapSet s.waitingPlayers sid ai).length := by
    rw [hset]
    simp only [List.length_append, List.length_cons, List.length_nil]
    omega
  have hmain : handleMatchmaking s sid ai rid ft now (some cid) =
      ({ s with
          waitingPlayers := mapDelete (mapDelete (s.waitingPlayers ++ [(sid, ai)]) q1) q2,
          rooms := mapSet s.rooms rid
            { players := [q1, q2], messages := [], isFirstTurn := ft,
              playerTypes := [(q1, b1), (q2, b2)], isActive := true,
              startTime := now, currentTurn := none, turnTimer := none,
              roomTimer := none },
          roomTimers := keySet s.roomTimers rid,
          socketRoom := mapSet (mapSet s.socketRoom q1 rid) q2 rid },
       [Action.dbCreateConversation rid q1 q2 b1 b2,
        Action.emit q1 (.MATCH_FOUND rid cid b1 ft ROOM_TIME_LIMIT),
        Action.emit q2 (.MATCH_FOUND rid cid b2 (!ft) ROOM_TIME_LIMIT),
        Action.startRoomTimer rid]) := by
    unfold handleMatchmaking
    rw [hnr]
    simp only [hnw, Option.isSome_none, Bool.false_eq_true, if_false, ge_iff_le,
      hlen2, if_true]
    rw [hset] at hlen2 ⊢
    simp only [ge_iff_le, hlen2, if_true, htake]
    unfold startRoomCountdown
    rw [mapLookup_mapSet_self]
  refine ⟨?_, ?_, ?_, ?_⟩
  · rw [hmain]
    simp [mapLookup_mapSet_self]
  · rw [hmain]
    by_cases hq : q1 = q2
    · subst hq
      exact mapLookup_mapDelete_self _ _
    · rw [mapLookup_mapDelete_ne _ _ _ hq]
      exact mapLookup_mapDelete_self _ _
  · rw [hmain]
    exact mapLookup_mapDelete_self _ _
  · rw [hmain]

/-- C8 witness: in a queue already holding players 7 and 9, player 8 joins;
the pairing consumes 7 and 9 — the two earliest entries, not the caller —
and both leave the queue while the caller 8 stays waiting. -/
theorem c8_pairing_consumes_fifo_head_witness :
    (mapLookup stQ2.socketRoom 8 = none ∧
     mapLookup stQ2.waitingPlayers 8 = none ∧
     1 ≤ stQ2.waitingPlayers.length ∧
     (stQ2.waitingPlayers ++ [(8, true)]).take 2 = [(7, true), (9, false)]) ∧
    (mapLookup (handleMatchmaking stQ2 8 true 60 true 4 (some 11)).1.rooms 60).map
      Room.players = some [7, 9] :=
  ⟨⟨by decide, by decide, by decide, by decide⟩,
   (c8_pairing_consumes_fifo_head stQ2 8 7 9 true true false 60 true 4 11
     (by decide) (by decide) (by decide) (by decide)).1⟩

/-! ### C9 — guess persistence failure mutates nothing and does not restart
the timer -/

/-- C9 (confirmed): when `submitGuess` fails, the guesser is notified with
an error, the room registry is untouched (the session stays as it was, in
particular still active), and the session-wide timer — cancelled before the
persistence call, as the trace order shows — is not restarted. -/
theorem c9_guess_failure_no_mutation (s : ServerState) (sid : PlayerId) (g : Bool)
    (roomId : RoomId) (room : Room)
    (hsr : mapLookup s.socketRoom sid = some roomId)
    (hr : mapLookup s.rooms roomId = some room)
    (ht : roomId ∈ s.roomTimers) :
    handleMakeGuess s sid g none =
      ({ s with roomTimers := s.roomTimers.erase roomId },
       [Action.clearRoomTimersEntry roomId,
        Action.dbSubmitGuess roomId sid g,
        Action.emit sid (.ERROR "Failed to submit guess")]) ∧
    (handleMakeGuess s sid g none).1.rooms = s.rooms ∧
    Action.startRoomTimer roomId ∉ (handleMakeGuess s sid g none).2 := by
  have hmain : handleMakeGuess s sid g none =
      ({ s with roomTimers := s.roomTimers.erase roomId },
       [Action.clearRoomTimersEntry roomId,
        Action.dbSubmitGuess roomId sid g,
        Action.emit sid (.ERROR "Failed to submit guess")]) := by
    unfold handleMakeGuess
    simp [hsr, hr, ht]
  refine ⟨hmain, by rw [hmain], ?_⟩
  rw [hmain]
  simp

/-- C9 witness: the theorem applied to the live session `st0` with a failing
persistence call for player 1's guess. -/
theorem c9_guess_failure_no_mutation_witness :
    (mapLookup st0.socketRoom 1 = some 100 ∧
     mapLookup st0.rooms 100 = some room0 ∧
     100 ∈ st0.roomTimers) ∧
    (handleMakeGuess st0 1 true none).1.rooms = st0.rooms :=
  ⟨⟨by decide, by decide, by decide⟩,
   (c9_guess_failure_no_mutation st0 1 true 100 room0
     (by decide) (by decide) (by decide)).2.1⟩

/-! ### C10 — nothing but replacement or expiry touches a turn timer -/

/-- Helper: `handleDisconnect` leaves the turn-timer registry untouched. -/
theorem handleDisconnect_turnTimers (s : ServerState) (sid : PlayerId) :
    (handleDisconnect s sid).1.turnTimers = s.turnTimers := by
  unfold handleDisconnect
  dsimp only
  split
  · rfl
  · split
    · rfl
    · split <;> rfl

/-- Helper: `handleRetire` leaves the turn-timer registry untouched. -/
theorem handleRetire_turnTimers (s : ServerState) (sid : PlayerId) :
    (handleRetire s sid).1.turnTimers = s.turnTimers := by
  unfold handleRetire
  dsimp only
  split
  · rfl
  · split
    · rfl
    · split <;> rfl

/-- Helper: `handleMakeGuess` leaves the turn-timer registry untouched. -/
theorem handleMakeGuess_turnTimers (s : ServerState) (sid : PlayerId) (g : Bool)
    (db : Option GuessRow) :
    (handleMakeGuess s sid g db).1.turnTimers = s.turnTimers := by
  unfold handleMakeGuess
  dsimp only
  split
  · rfl
  · split
    · rfl
    · split <;> split <;> rfl

/-- Helper: a session-wide timer tick (including its expiry transition)
leaves the turn-timer registry untouched. -/
theorem roomTimerTick_turnTimers (s : ServerState) (roomId : RoomId)
    (room : Room) (tl : Int) :
    (roomTimerTick s roomId room tl).1.turnTimers = s.turnTimers := by
  unfold roomTimerTick
  split
  · rfl
  · dsimp only
    split <;> rfl

/-- C10 (confirmed): disconnect, retire, a successful or failed guess, and
any session-wide timer tick (including its expiry) all leave the turn-timer
registry exactly as it was; and a turn timer that reaches zero still ticks,
emits its final `TURN_TIME_UPDATE`, fires `TURN_TIME_UP` and removes itself
even when the session has already been removed from the registry — in which
case the forfeit handling is a no-op that emits nothing further. -/
theorem c10_turn_timer_preservation (s : ServerState) (sid pid : PlayerId)
    (g : Bool) (db : Option GuessRow) (rid rid2 : RoomId) (room : Room)
    (tl : Int)
    (hgone : mapLookup s.rooms rid = none) :
    (handleDisconnect s sid).1.turnTimers = s.turnTimers ∧
    (handleRetire s sid).1.turnTimers = s.turnTimers ∧
    (handleMakeGuess s sid g db).1.turnTimers = s.turnTimers ∧
    (roomTimerTick s rid2 room tl).1.turnTimers = s.turnTimers ∧
    turnTimerTick s rid pid 1 =
      ({ s with turnTimers := s.turnTimers.erase pid },
       [Action.emit pid (.TURN_TIME_UPDATE 0 true),
        Action.clearTurnTimer pid,
        Action.emit pid .TURN_TIME_UP]) := by
  refine ⟨handleDisconnect_turnTimers s sid, handleRetire_turnTimers s sid,
    handleMakeGuess_turnTimers s sid g db, roomTimerTick_turnTimers s rid2 room tl, ?_⟩
  unfold turnTimerTick handleForfeit
  norm_num [hgone]

/-- C10 witness: in `st0` (no room `999`), player 2's orphaned turn timer
expires: the final update, `TURN_TIME_UP` and self-removal still happen, and
the forfeit handling for the vanished room emits nothing. -/
theorem c10_turn_timer_preservation_witness :
    mapLookup st0.rooms 999 = none ∧
    (handleDisconnect st0 1).1.turnTimers = st0.turnTimers :=
  ⟨by decide,
   (c10_turn_timer_preservation st0 1 2 true none 999 100 room0 5 (by decide)).1⟩

end TuringGame
